import Mathlib

/-!
# Verification of the VoiceAI Cargo Prime call orchestrator

Shallow embedding of the call-orchestration layer of the repository:
the webhook endpoint (`webhook_server.py`), the per-call audio pipeline
(`audio_stream_handler.py`), the LLM conversation window (`llm_handler.py`)
and the SIP digest-authentication flow (`ringcentral_sip_server.py`).

External collaborators (HMAC/MD5 primitives, the speech and LLM services,
the provider REST API, JSON decoding) are modelled as parameters or
outcome values, exactly at the interface boundary the code calls them;
everything the orchestration code itself does — guard checks, buffer
swaps, registry updates, string assembly — is translated statement by
statement from the Python source.
-/

namespace VoiceAI

/-! ## String utilities

Python's `str.split`, `str.strip`, prefix tests and substring tests,
implemented by structural recursion over the character list so every
definition evaluates inside the kernel on concrete inputs. -/

/-- Worker for `splitStr`: `fuel` bounds the number of steps (the input
length suffices, since each step consumes at least one character). -/
def splitStrAux (sep : List Char) : Nat → List Char → List Char →
    List (List Char)
  | 0, l, acc => [acc.reverse ++ l]
  | fuel + 1, l, acc =>
    match l with
    | [] => [acc.reverse]
    | c :: rest =>
      if sep.isPrefixOf (c :: rest) then
        acc.reverse :: splitStrAux sep fuel ((c :: rest).drop sep.length) []
      else
        splitStrAux sep fuel rest (c :: acc)

/-- Python `s.split(sep)` for a non-empty separator (left-to-right,
non-overlapping). -/
def splitStr (sep s : String) : List String :=
  if sep = "" then [s]
  else (splitStrAux sep.data s.data.length s.data []).map String.mk

/-- Python `s.startswith(pre)`. -/
def startsWithStr (pre s : String) : Bool :=
  pre.data.isPrefixOf s.data

/-- Python `s.strip()` (whitespace from both ends). -/
def trimStr (s : String) : String :=
  String.mk (((s.data.dropWhile Char.isWhitespace).reverse.dropWhile
    Char.isWhitespace).reverse)

/-- Drop the first `n` characters. -/
def dropStr (s : String) (n : Nat) : String :=
  String.mk (s.data.drop n)

/-- Join strings with a separator (inverse of `splitStr` on the tail of
a `split(sep, 1)`). -/
def joinSep (sep : String) : List String → String
  | [] => ""
  | [x] => x
  | x :: rest => x ++ sep ++ joinSep sep rest

/-! ## Webhook signature verification (`webhook_server.py`)

`_verify_webhook_signature` reads the `X-RC-Signature` header and the
configured webhook secret; if either is missing the check is skipped
(returns `True`).  Otherwise it base64-HMAC-SHA1s the raw body with the
secret and compares.  The HMAC primitive (`hmac`/`hashlib`/`base64`)
is external and is passed in as a function. -/

def verify_webhook_signature (hmacSha1B64 : String → String → String)
    (signatureHeader webhookSecret : Option String) (rawBody : String) : Bool :=
  match signatureHeader with
  | none => true
  | some signature =>
    match webhookSecret with
    | none => true
    | some secret =>
      -- expected = base64(hmac_sha1(secret, body)); compare_digest
      signature == hmacSha1B64 secret rawBody

/-- Result of `json.loads` on the raw body, reduced to the fields the
handler inspects: the `eventType`, and whether `body.telephonySessionId`
is present (truthy). -/
structure ParsedWebhook where
  eventType : String
  hasTelephonySessionId : Bool
  deriving Repr, DecidableEq

/-- Outcome of the `POST /webhook` branch of `ringcentral_webhook`. -/
inductive PostOutcome where
  /-- empty body: validation ping, echo `Validation-Token` when present -/
  | emptyOk (validationToken : Option String)
  /-- signature check failed: 401 before any JSON parsing -/
  | badSignature
  /-- body parsed but was not valid JSON: 400 -/
  | badJson
  /-- dispatched to `_handle_telephony_session` -/
  | handledTelephony
  /-- any other parsed event: 200 received -/
  | receivedOther
  deriving Repr, DecidableEq

/-- HTTP status the handler responds with for each outcome. -/
def PostOutcome.status : PostOutcome → Nat
  | .emptyOk _ => 200
  | .badSignature => 401
  | .badJson => 400
  | .handledTelephony => 200
  | .receivedOther => 200

/-- The `POST` branch of `ringcentral_webhook`.  `decodeJson` stands for
`json.loads` on the raw body (`none` = `JSONDecodeError`).  The second
component of the result records whether JSON parsing was ever attempted
on the payload. -/
def ringcentral_webhook_post (hmacSha1B64 : String → String → String)
    (signatureHeader webhookSecret validationToken : Option String)
    (rawBody : String) (decodeJson : String → Option ParsedWebhook) :
    PostOutcome × Bool :=
  -- 1. empty POST: validation request, answered before any signature work
  if rawBody = "" then
    (.emptyOk validationToken, false)
  -- 2. signature check, done before parsing JSON
  else if ¬ verify_webhook_signature hmacSha1B64 signatureHeader webhookSecret rawBody then
    (.badSignature, false)
  else
    -- 3. json.loads(raw_data)
    match decodeJson rawBody with
    | none => (.badJson, true)
    -- 4. dispatch
    | some webhookData =>
      if webhookData.eventType = "telephony-session-event" then
        (.handledTelephony, true)
      else if webhookData.hasTelephonySessionId then
        (.handledTelephony, true)
      else
        (.receivedOther, true)

/-! ## Audio Streaming Coordinator (`audio_stream_handler.py`)

`handle_audio_stream` appends each binary WebSocket message to the
session's `audio_buffer` and, once the buffer holds at least
`sample_rate * 2` bytes, awaits `_process_audio_chunk`.
`_process_audio_chunk` returns immediately when `is_processing` is set;
otherwise it sets `is_processing`, snapshots and clears the buffer,
transcribes, appends the user turn, then calls
`generate_ai_response(user_text, conversation_history=...)` — a call
that raises `TypeError` on every invocation, because
`generate_ai_response` is declared `(user_input, context="")` and
accepts no `conversation_history` keyword — and clears `is_processing`
in a `finally` block on every path, success or exception. -/

/-- `Config.SPEECH["sample_rate"]` (`config.py`). -/
def sample_rate : Nat := 16000

/-- One entry of `session['conversation_history']`
(`role`, `content`, `timestamp`). -/
structure HistoryEntry where
  role : String
  content : String
  timestamp : Nat
  deriving Repr, DecidableEq

/-- The per-call stream session created in `handle_audio_stream`
(the fields the pipeline reads and writes; the websocket handle is
represented by whether `websocket.open` holds). -/
structure StreamSession where
  audio_buffer : List Nat
  conversation_history : List HistoryEntry
  is_processing : Bool
  websocket_open : Bool
  deriving Repr, DecidableEq

/-- Outcomes of the external services one pipeline run may consult:
`async_transcribe`, `generate_ai_response`, `async_synthesize` and
`websocket.send` may each succeed or raise.  (The `generate`,
`synthesize` and `sendOk` outcomes are never reached by
`_process_audio_chunk`: its `generate_ai_response` call raises
`TypeError` before dispatching to any of them.) -/
structure PipelineEnv where
  transcribe : Except Unit String
  generate : Except Unit String
  synthesize : Except Unit (List Nat)
  sendOk : Bool
  now : Nat

/-- Observable effects of one run of the pipeline. -/
inductive AudioAction where
  | transcribeCall (bytes : List Nat)
  | llmCall (userText : String)
  | synthCall (responseText : String)
  | sendAudio (bytes : List Nat)
  deriving Repr, DecidableEq

/-- `_process_audio_chunk`: the body of one pipeline run for an existing
session.  Every early `return` and the `finally: is_processing = False`
are translated directly. -/
def process_audio_chunk (env : PipelineEnv) (s : StreamSession) :
    StreamSession × List AudioAction :=
  -- `if not session or session['is_processing']: return`
  if s.is_processing then (s, [])
  else
    -- session['is_processing'] = True
    -- audio_data = bytes(session['audio_buffer']); session['audio_buffer'].clear()
    let audio_data := s.audio_buffer
    let s := { s with audio_buffer := [], is_processing := true }
    if audio_data.length < 1000 then
      -- too little data: is_processing = False; return
      ({ s with is_processing := false }, [])
    else
      match env.transcribe with
      | .error _ =>
        -- exception in STT → except/finally
        ({ s with is_processing := false }, [.transcribeCall audio_data])
      | .ok user_text =>
        if user_text ≠ "" ∧ trimStr user_text ≠ "" then
          -- append user turn to the conversation history
          let s := { s with conversation_history :=
            s.conversation_history ++ [(⟨"user", user_text, env.now⟩ : HistoryEntry)] }
          -- `ai_response = await generate_ai_response(user_text,
          --   conversation_history=session['conversation_history'])`:
          -- `generate_ai_response` is declared `(user_input, context="")`
          -- in `llm_handler.py`, so the `conversation_history` keyword
          -- raises `TypeError` on every invocation, before any model
          -- request is made; the surrounding `except` logs it and the
          -- `finally` clears the flag.  The assistant-turn append, the
          -- synthesis and the send that follow this call in the source
          -- are therefore unreachable in this handler.
          ({ s with is_processing := false }, [.transcribeCall audio_data])
        else
          -- empty transcription: silence, no LLM call; finally clears flag
          ({ s with is_processing := false }, [.transcribeCall audio_data])

/-- The binary-message branch of `handle_audio_stream`: buffer the
fragment, update `last_audio_time`, and trigger `_process_audio_chunk`
when at least `sample_rate * 2` bytes have accumulated. -/
def handle_audio_fragment (env : PipelineEnv) (s : StreamSession)
    (message : List Nat) : StreamSession × List AudioAction :=
  let s := { s with audio_buffer := s.audio_buffer ++ message }
  if s.audio_buffer.length ≥ sample_rate * 2 then
    process_audio_chunk env s
  else
    (s, [])

/-- How many transcribe calls a list of pipeline actions contains. -/
def countTranscribe (acts : List AudioAction) : Nat :=
  (acts.filter fun a => match a with | .transcribeCall _ => true | _ => false).length

/-! ## Telephony webhook state machine (`webhook_server.py`)

Globals of the module: `active_calls` (dict callId → call data, guarded
by `call_lock`) and `answered_calls` (set of callIds an answer was
attempted for, guarded by `answer_lock`).  The dict is modelled as an
association list, the set as a duplicate-free-by-construction list.
Python string membership `a in b` is substring containment. -/

/-- Python `needle in haystack` on strings (substring containment). -/
def pyInStr (needle haystack : String) : Bool :=
  (splitStr needle haystack).length > 1

/-- Python truthiness of an optional string (`None` and `""` are falsy). -/
def pyTruthy : Option String → Bool
  | none => false
  | some s => s ≠ ""

/-- One party of a `telephony-session-event`, reduced to the fields
`_handle_telephony_session` reads. -/
structure Party where
  direction : String
  statusCode : String
  statusReason : Option String
  missedCall : Bool
  partyId : String
  toPhoneNumber : String
  toDeviceId : Option String
  deriving Repr, DecidableEq

/-- The entry stored in `active_calls` (the fields later reads touch). -/
structure CallRecord where
  statusCode : String
  deriving Repr, DecidableEq

/-- The module-level mutable state: `active_calls` and `answered_calls`. -/
structure WHState where
  active : List (String × CallRecord)
  answered : List String
  deriving Repr, DecidableEq

/-- `answered_calls.add(callId)` (set add). -/
def setAdd (l : List String) (x : String) : List String :=
  if x ∈ l then l else x :: l

/-- `answered_calls.discard(callId)` (set discard). -/
def setDiscard (l : List String) (x : String) : List String :=
  l.filter (fun y => y ≠ x)

/-- `active_calls[callId] = v` (dict store). -/
def dictPut (l : List (String × CallRecord)) (k : String) (v : CallRecord) :
    List (String × CallRecord) :=
  (k, v) :: l.filter (fun p => p.1 ≠ k)

/-- `del active_calls[callId]` guarded by `if callId in active_calls`. -/
def dictDel (l : List (String × CallRecord)) (k : String) :
    List (String × CallRecord) :=
  l.filter (fun p => p.1 ≠ k)

/-- `callId in active_calls`. -/
def dictMem (l : List (String × CallRecord)) (k : String) : Bool :=
  l.any (fun p => p.1 = k)

/-- Result of the `GET .../telephony/sessions/{id}` pre-answer status
check inside `answer_call_automatically`: the request can raise, the
party can be missing from the response, or it reports a status code. -/
inductive StatusCheck where
  | checkError
  | partyNotFound
  | partyStatus (code : String)
  deriving Repr, DecidableEq

/-- External outcomes consumed by one answer attempt: the status
pre-check and whether the provider answer `POST` succeeds or raises. -/
structure AnswerEnv where
  statusCheck : StatusCheck
  postSucceeds : Bool
  deriving Repr, DecidableEq

/-- Observable side effects of processing webhook events. -/
inductive WhAction where
  /-- the provider answer `POST .../parties/{id}/answer` was issued -/
  | answerPost (callId : String)
  /-- a `VoiceAIEngine` worker was started for the call -/
  | engineStart (callId : String)
  /-- the voicemail call-back flow was started -/
  | voicemailStart (callId : String)
  /-- `logger.error` was called -/
  | logError (message : String)
  deriving Repr, DecidableEq

/-- `answer_call_automatically(session_id, party_id, caller_info,
device_id)`: returns the updated `answered_calls` set, the emitted
actions, and the boolean result.  Translated clause by clause:
the attempted marker is added under `answer_lock`; the status pre-check
and the missing-device branch `return False` without touching the
marker; only the `except` around the answer `POST` discards it. -/
def answer_call_automatically (answered : List String)
    (session_id party_id : String) (device_id : Option String)
    (env : AnswerEnv) : List String × List WhAction × Bool :=
  let call_id := session_id ++ "_" ++ party_id
  -- with answer_lock: duplicate-attempt rejection and marker set
  if call_id ∈ answered then
    (answered, [], false)
  else
    let answered := setAdd answered call_id
    -- pre-answer status check (its own try/except: errors fall through)
    let proceed : Option (List String × List WhAction × Bool) :=
      match env.statusCheck with
      | .checkError => none                       -- "пробуем ответить"
      | .partyNotFound =>
        some (answered, [.logError "party not found"], false)
      | .partyStatus code =>
        if code ∈ ["Disconnected", "Gone", "Cancelled", "Answered", "Connected"] then
          some (answered, [], false)
        else if code ∉ ["Setup", "Proceeding", "Alerting"] then
          some (answered, [], false)
        else
          none
    match proceed with
    | some r => r
    | none =>
      if ¬ pyTruthy device_id then
        -- deviceId not provided: cannot answer, marker kept
        (answered, [.logError "deviceId not provided"], false)
      else
        -- POST .../answer
        if env.postSucceeds then
          (answered, [.answerPost call_id], true)
        else
          -- except: discard the marker, return False
          (setDiscard answered call_id, [.answerPost call_id], false)

/-- `_run_answer_call(call_data)`: the background thread the `Setup`
branch starts; re-checks the event's own status code, the presence of
ids and device, then calls `answer_call_automatically`. -/
def run_answer_call (answered : List String)
    (session_id party_id : String) (device_id : Option String)
    (eventStatusCode : String) (env : AnswerEnv) :
    List String × List WhAction :=
  if eventStatusCode ∈ ["Disconnected", "Gone", "Cancelled"] then
    (answered, [])
  else if session_id = "" ∨ party_id = "" then
    (answered, [.logError "not enough data to answer"])
  else if ¬ pyTruthy device_id then
    (answered, [.logError "device id missing for answer"])
  else
    let (answered', acts, _) :=
      answer_call_automatically answered session_id party_id device_id env
    (answered', acts)

/-- The number monitored by the `Setup` branch
(`target_number = "+15139283626"`). -/
def target_number : String := "+15139283626"

/-- The Flask response `_handle_telephony_session` produces. -/
structure HttpResp where
  status : Nat
  body : String
  deriving Repr, DecidableEq

/-- The per-party body of the loop in `_handle_telephony_session`.
Returns the new state, the emitted actions, and `some resp` when the
branch returns from the whole handler early (missing deviceId). -/
def handle_party (st : WHState) (tsid : String) (p : Party)
    (env : AnswerEnv) : WHState × List WhAction × Option HttpResp :=
  if p.direction = "Inbound" ∧ p.statusCode = "Setup" ∧
      pyInStr target_number p.toPhoneNumber then
    match p.toDeviceId with
    | none =>
      -- Device ID not found: log error, return 400 from the handler,
      -- before the call is stored in active_calls
      (st, [.logError "Device ID not found"],
        some ⟨400, "Device ID not found"⟩)
    | some device_id =>
      let call_id := tsid ++ "_" ++ p.partyId
      -- with call_lock: active_calls[call_id] = call_data
      let st := { st with active := dictPut st.active call_id ⟨p.statusCode⟩ }
      -- thread: _run_engine_for_call
      -- thread: _run_answer_call
      let (answered', acts) :=
        run_answer_call st.answered tsid p.partyId (some device_id)
          p.statusCode env
      ({ st with answered := answered' },
        .engineStart call_id :: acts, none)
  else if p.direction = "Inbound" ∧
      p.statusCode ∈ ["Proceeding", "Setup", "Alerting"] then
    (st, [], none)
  else if p.direction = "Inbound" ∧
      p.statusCode ∈ ["Answered", "Connected"] then
    (st, [], none)
  else if p.direction = "Inbound" ∧
      p.statusCode ∈ ["Disconnected", "Gone", "Cancelled"] then
    let call_id := tsid ++ "_" ++ p.partyId
    -- voicemail call-back flow (best-effort, separate thread)
    let vmActs :=
      if p.statusReason = some "Voicemail" ∧ p.missedCall ∧
          pyInStr "15139283626" p.toPhoneNumber then
        if pyTruthy p.toDeviceId then
          [WhAction.voicemailStart (call_id ++ "_voicemail")]
        else
          [WhAction.logError "Device ID not found for voicemail"]
      else []
    -- with call_lock: if call_id in active_calls: del
    -- with answer_lock: answered_calls.discard(call_id)
    ({ active := dictDel st.active call_id,
       answered := setDiscard st.answered call_id }, vmActs, none)
  else
    -- other statuses: update stored status for existing calls only
    if p.partyId ≠ "" then
      let call_id := tsid ++ "_" ++ p.partyId
      if dictMem st.active call_id then
        if p.statusCode ∈ ["Disconnected", "Gone"] then
          ({ st with active := dictDel st.active call_id }, [], none)
        else
          ({ st with active := dictPut st.active call_id ⟨p.statusCode⟩ },
            [], none)
      else (st, [], none)
    else (st, [], none)

/-- The parties loop of `_handle_telephony_session`: each event carries,
per party, the external outcomes its (possible) answer attempt consumes.
An early `return` aborts the loop. -/
def handle_parties (st : WHState) (tsid : String) :
    List (Party × AnswerEnv) → WHState × List WhAction × HttpResp
  | [] => (st, [], ⟨200, "processed"⟩)
  | (p, env) :: rest =>
    match handle_party st tsid p env with
    | (st', acts, some resp) => (st', acts, resp)
    | (st', acts, none) =>
      let (st'', acts', resp) := handle_parties st' tsid rest
      (st'', acts ++ acts', resp)

/-- `_handle_telephony_session` for one webhook event. -/
def handle_telephony_session (st : WHState) (tsid : String)
    (parties : List (Party × AnswerEnv)) : WHState × List WhAction × HttpResp :=
  handle_parties st tsid parties

/-- A delivered sequence of telephony webhook events, processed in
arrival order; actions are concatenated in order. -/
def process_events (st : WHState) :
    List (String × List (Party × AnswerEnv)) → WHState × List WhAction
  | [] => (st, [])
  | (tsid, parties) :: rest =>
    let (st', acts, _) := handle_telephony_session st tsid parties
    let (st'', acts') := process_events st' rest
    (st'', acts ++ acts')

/-- How many times the provider answer action was issued for `callId`
in a list of actions. -/
def countAnswerPosts (callId : String) (acts : List WhAction) : Nat :=
  (acts.filter fun a => match a with
    | .answerPost c => c = callId
    | _ => false).length

/-- The status codes the terminal-event branch matches. -/
def terminalCodes : List String := ["Disconnected", "Gone", "Cancelled"]

/-- Per-step answer-guard invariant for one call id: a processing step
emits at most one answer `POST` for `cid`; a step that emits one leaves
the attempted marker set afterwards; and a step entered with the marker
already set emits none and keeps it set. -/
def AttemptInv (cid : String) (st st' : WHState) (acts : List WhAction) : Prop :=
  countAnswerPosts cid acts ≤ 1 ∧
  (countAnswerPosts cid acts = 1 → cid ∈ st'.answered) ∧
  (cid ∈ st.answered → cid ∈ st'.answered ∧ countAnswerPosts cid acts = 0)

/-! ## LLM conversation window (`llm_handler.py`)

`LLMHandler` keeps `conversation_history` as a list of exchanges
(`{user, assistant, timestamp}`), trimmed after every append to the
last `max_history = 10`, and `_build_messages` sends the system prompt,
optional context, the trailing `max_history` exchanges and the current
input to the model. -/

/-- `self.max_history = 10`. -/
def max_history : Nat := 10

/-- One exchange stored by `LLMHandler._update_history`. -/
structure Exchange where
  user : String
  assistant : String
  timestamp : Nat
  deriving Repr, DecidableEq

/-- One message sent to the Ollama chat endpoint. -/
structure ChatMsg where
  role : String
  content : String
  deriving Repr, DecidableEq

/-- Python `l[-n:]`. -/
def lastN {α : Type} (l : List α) (n : Nat) : List α :=
  l.drop (l.length - n)

/-- `LLMHandler._update_history`: append the exchange, then keep only
the last `max_history` entries. -/
def update_history (history : List Exchange)
    (user_input assistant_response : String) (now : Nat) : List Exchange :=
  let history := history ++ [⟨user_input, assistant_response, now⟩]
  if history.length > max_history then lastN history max_history else history

/-- `LLMHandler._build_messages`: system prompt, optional context,
the trailing window of history (user/assistant pairs), current input. -/
def build_messages (system_prompt : String) (history : List Exchange)
    (user_input context : String) : List ChatMsg :=
  let messages : List ChatMsg := [⟨"system", system_prompt⟩]
  let messages :=
    if context ≠ "" then
      messages ++ [(⟨"system", "Additional context: " ++ context⟩ : ChatMsg)]
    else messages
  let messages := messages ++
    (lastN history max_history).flatMap
      (fun e => [(⟨"user", e.user⟩ : ChatMsg), (⟨"assistant", e.assistant⟩ : ChatMsg)])
  messages ++ [⟨"user", user_input⟩]

/-! ## SIP digest registration (`ringcentral_sip_server.py`)

The MD5 primitive (`hashlib.md5(...).hexdigest()`) is external and is
passed in as a function `String → String`.  Header extraction is done
on `\r\n`-separated lines exactly as the regexes
`WWW-Authenticate: Digest (.+)` and the `param.strip().split('=', 1)`
loop do. -/

/-- `RINGCENTRAL_CONFIG` fields the registration flow reads. -/
structure SipConfig where
  username : String
  password : String
  domain : String
  auth_realm : String
  register_interval : Nat
  deriving Repr, DecidableEq

/-- `LOCAL_CONFIG` fields the registration flow reads. -/
structure LocalConfig where
  public_ip : String
  sip_port : Nat
  deriving Repr, DecidableEq

/-- Server state touched by registration. -/
structure SipState where
  registered : Bool
  register_call_id : Option String
  cseq : Nat
  deriving Repr, DecidableEq

/-- `calculate_digest_response`: `MD5(MD5(user:realm:pass) : nonce :
MD5(method:uri))`. -/
def calculate_digest_response (md5 : String → String)
    (username realm password method uri nonce : String) : String :=
  let ha1 := md5 (username ++ ":" ++ realm ++ ":" ++ password)
  let ha2 := md5 (method ++ ":" ++ uri)
  md5 (ha1 ++ ":" ++ nonce ++ ":" ++ ha2)

/-- `register_with_ringcentral`: build and send the `REGISTER` request,
optionally with an `Authorization` header; increments `cseq` and fixes
`register_call_id` on first use.  `now` stands for `int(time.time())`. -/
def register_with_ringcentral (cfg : SipConfig) (lc : LocalConfig)
    (st : SipState) (now : Nat) (auth_header : Option String) :
    SipState × String :=
  let from_uri := "sip:" ++ cfg.username ++ "@" ++ cfg.domain
  let to_uri := from_uri
  let contact_uri := "sip:" ++ cfg.username ++ "@" ++ lc.public_ip ++ ":" ++
    toString lc.sip_port
  let call_id :=
    match st.register_call_id with
    | some c => c
    | none => toString now ++ cfg.username ++ "@" ++ lc.public_ip
  let branch := "z9hG4bK" ++ toString (now * 1000)
  let tag := toString (now * 1000)
  let request :=
    "REGISTER sip:" ++ cfg.domain ++ " SIP/2.0\r\n" ++
    "Via: SIP/2.0/UDP " ++ lc.public_ip ++ ":" ++ toString lc.sip_port ++
      ";branch=" ++ branch ++ ";rport\r\n" ++
    "Max-Forwards: 70\r\n" ++
    "From: <" ++ from_uri ++ ">;tag=" ++ tag ++ "\r\n" ++
    "To: <" ++ to_uri ++ ">\r\n" ++
    "Call-ID: " ++ call_id ++ "\r\n" ++
    "CSeq: " ++ toString st.cseq ++ " REGISTER\r\n" ++
    "Contact: <" ++ contact_uri ++ ">;expires=" ++
      toString cfg.register_interval ++ "\r\n" ++
    "Expires: " ++ toString cfg.register_interval ++ "\r\n" ++
    "User-Agent: VoiceAI-RingCentral/1.0\r\n" ++
    (match auth_header with
     | some a => "Authorization: " ++ a ++ "\r\n"
     | none => "") ++
    "Content-Length: 0\r\n" ++
    "\r\n"
  ({ st with register_call_id := some call_id, cseq := st.cseq + 1 }, request)

/-- Strip a given character from both ends (Python `str.strip('"')`). -/
def stripChar (c : Char) (s : String) : String :=
  String.mk (((s.toList.dropWhile (· = c)).reverse.dropWhile (· = c)).reverse)

/-- Python `s.split(sep, 1)` when `sep` occurs (`none` models the
`ValueError` of unpacking a one-element split into two names). -/
def splitOnce (sep s : String) : Option (String × String) :=
  match splitStr sep s with
  | [] => none
  | [_] => none
  | k :: rest => some (k, joinSep sep rest)

/-- The parameter extraction of `handle_auth_challenge`: find the
`WWW-Authenticate: Digest` header line, split its remainder on commas,
and read each `key=value` pair, stripping whitespace from the pair and
quotes from the value. -/
def parse_auth_params (message : String) : Option (List (String × String)) :=
  match (splitStr "\r\n" message).find?
      (fun l => startsWithStr "WWW-Authenticate: Digest " l) with
  | none => none
  | some line =>
    let rest := dropStr line "WWW-Authenticate: Digest ".length
    (splitStr "," rest).foldr
      (fun param acc =>
        match acc with
        | none => none
        | some l =>
          match splitOnce "=" (trimStr param) with
          | none => none
          | some (k, v) => some ((k, stripChar '"' v) :: l))
      (some [])

/-- Dictionary lookup on the parsed auth parameters. -/
def lookupParam (params : List (String × String)) (k : String) : Option String :=
  (params.find? (fun p => p.1 = k)).map (fun p => p.2)

/-- The `Authorization` header value `handle_auth_challenge` assembles
around the computed digest response. -/
def digest_authorization_header (username realm nonce uri response : String) :
    String :=
  "Digest username=\"" ++ username ++ "\", realm=\"" ++ realm ++
  "\", nonce=\"" ++ nonce ++ "\", uri=\"" ++ uri ++
  "\", response=\"" ++ response ++ "\", algorithm=MD5"

/-- `handle_auth_challenge`: on a `401`, recompute a digest from the
challenge's nonce and resend `REGISTER` with an `Authorization` header
carrying it.  Returns the resent request, or `none` when the
`WWW-Authenticate` header is absent or malformed (missing `nonce` is a
`KeyError`, a pair without `=` a `ValueError`). -/
def handle_auth_challenge (md5 : String → String) (cfg : SipConfig)
    (lc : LocalConfig) (st : SipState) (now : Nat) (message : String) :
    SipState × Option String :=
  match parse_auth_params message with
  | none => (st, none)
  | some params =>
    match lookupParam params "nonce" with
    | none => (st, none)
    | some nonce =>
      let realm :=
        match lookupParam params "realm" with
        | some r => r
        | none => cfg.auth_realm
      let uri := "sip:" ++ cfg.domain
      let response := calculate_digest_response md5 cfg.username realm
        cfg.password "REGISTER" uri nonce
      let auth_header :=
        digest_authorization_header cfg.username realm nonce uri response
      let (st', req) := register_with_ringcentral cfg lc st now (some auth_header)
      (st', some req)

/-- What each branch of `handle_sip_message` does besides mutating the
registration state.  INVITE/BYE/OPTIONS start call flows that no claim
of this development touches; they are recorded as opaque actions. -/
inductive SipAction where
  | sendRegister (request : String)
  | inviteFlow
  | byeFlow
  | optionsFlow
  | ackSeen
  | ignored
  deriving Repr, DecidableEq

/-- `handle_sip_message`: dispatch on the first line of the datagram.
A `200 OK` whose message mentions `REGISTER` marks the engine
registered; a `401` triggers `handle_auth_challenge`. -/
def handle_sip_message (md5 : String → String) (cfg : SipConfig)
    (lc : LocalConfig) (st : SipState) (now : Nat) (message : String) :
    SipState × SipAction :=
  -- first_line = message.split('\r\n')[0]
  if startsWithStr "INVITE" ((splitStr "\r\n" message).headD "") then
    (st, .inviteFlow)
  else if startsWithStr "SIP/2.0 200 OK" ((splitStr "\r\n" message).headD "") then
    if pyInStr "REGISTER" message then
      ({ st with registered := true }, .ignored)
    else (st, .ignored)
  else if startsWithStr "SIP/2.0 401" ((splitStr "\r\n" message).headD "") then
    match handle_auth_challenge md5 cfg lc st now message with
    | (st', some req) => (st', .sendRegister req)
    | (st', none) => (st', .ignored)
  else if startsWithStr "BYE" ((splitStr "\r\n" message).headD "") then
    (st, .byeFlow)
  else if startsWithStr "ACK" ((splitStr "\r\n" message).headD "") then
    (st, .ackSeen)
  else if startsWithStr "OPTIONS" ((splitStr "\r\n" message).headD "") then
    (st, .optionsFlow)
  else
    (st, .ignored)

/-! ## Concrete fixtures

Concrete sessions, events and environments used by the closed witness
and counterexample theorems below. -/

/-- A call session holding exactly the processing threshold of audio. -/
def fullBufferSession : StreamSession :=
  ⟨List.replicate (sample_rate * 2) 0, [], false, true⟩

/-- A pipeline environment in which every external stage succeeds. -/
def okPipelineEnv : PipelineEnv :=
  ⟨.ok "hello there", .ok "how can I help", .ok [1, 2, 3], true, 0⟩

/-- Feed one threshold-sized RTP batch per step through
`handle_audio_fragment` with every stage succeeding. -/
def iterFragments : Nat → StreamSession
  | 0 => ⟨[], [], false, true⟩
  | n + 1 =>
    (handle_audio_fragment okPipelineEnv (iterFragments n)
      (List.replicate (sample_rate * 2) 0)).1

/-- An inbound `Setup` party on the monitored number with a device id. -/
def setupParty : Party :=
  ⟨"Inbound", "Setup", none, false, "p1", "+15139283626", some "d77"⟩

/-- The same inbound `Setup` party with no device id in its `to` leg. -/
def setupPartyNoDevice : Party :=
  ⟨"Inbound", "Setup", none, false, "p1", "+15139283626", none⟩

/-- An inbound `Disconnected` party for the same call. -/
def disconnectedParty : Party :=
  ⟨"Inbound", "Disconnected", none, false, "p1", "+15139283626", some "d77"⟩

/-- Answer-attempt environment: status pre-check raises, answer `POST`
raises too (provider-side failure). -/
def envPostFails : AnswerEnv := ⟨.checkError, false⟩

/-- Answer-attempt environment: status pre-check raises, answer `POST`
succeeds. -/
def envPostOk : AnswerEnv := ⟨.checkError, true⟩

/-- Two deliveries of the same inbound `Setup` event; the provider
answer action fails on the first attempt and succeeds on the second. -/
def duplicateSetupEvents : List (String × List (Party × AnswerEnv)) :=
  [("s1", [(setupParty, envPostFails)]), ("s1", [(setupParty, envPostOk)])]

/-- A single delivery of the inbound `Setup` event whose answer `POST`
succeeds. -/
def singleSetupEvent : List (String × List (Party × AnswerEnv)) :=
  [("s1", [(setupParty, envPostOk)])]

/-- A stand-in for the external MD5 hexdigest primitive. -/
def md5Fix : String → String := fun s => "H(" ++ s ++ ")"

/-- Concrete SIP configuration for the registration witness. -/
def sipCfgFix : SipConfig := ⟨"alice", "secret", "sip.ringcentral.com", "rcrealm", 3600⟩

/-- Concrete local network configuration. -/
def sipLcFix : LocalConfig := ⟨"198.51.100.7", 5060⟩

/-- Initial SIP engine state: unregistered. -/
def sipStFix : SipState := ⟨false, none, 1⟩

/-- A concrete `401 Unauthorized` challenge datagram. -/
def sip401Fix : String :=
  "SIP/2.0 401 Unauthorized\r\n" ++
  "Via: SIP/2.0/UDP 198.51.100.7:5060;branch=z9hG4bK1;rport\r\n" ++
  "WWW-Authenticate: Digest realm=\"rc\", nonce=\"abc123\"\r\n" ++
  "Content-Length: 0\r\n\r\n"

/-- A concrete `200 OK` for the authenticated `REGISTER`. -/
def sipOkFix : String :=
  "SIP/2.0 200 OK\r\n" ++
  "CSeq: 2 REGISTER\r\n" ++
  "Contact: <sip:alice@198.51.100.7:5060>;expires=3600\r\n" ++
  "Content-Length: 0\r\n\r\n"

end VoiceAI

namespace VoiceAI

/-! ### Sanity examples (compile-time checks of the embedding) -/

example :
    (ringcentral_webhook_post (fun s b => s ++ b) (some "sig") (some "key") none
      "{}" (fun _ => some ⟨"telephony-session-event", true⟩)) = (.badSignature, false) := by
  decide

example :
    (ringcentral_webhook_post (fun s b => s ++ b) none (some "key") none
      "{}" (fun _ => some ⟨"telephony-session-event", true⟩)) = (.handledTelephony, true) := by
  decide

/-! ### C4 — signature verified before any JSON parsing -/

/-- C4: for every webhook `POST` with a non-empty body whose signature
check fails, the handler answers 401 and the payload is never parsed
(second component `false`) nor dispatched: the HMAC comparison happens
strictly before `json.loads`. -/
theorem signature_checked_before_parse
    (hmacSha1B64 : String → String → String)
    (signatureHeader webhookSecret validationToken : Option String)
    (rawBody : String) (decodeJson : String → Option ParsedWebhook)
    (hbody : rawBody ≠ "")
    (hsig : verify_webhook_signature hmacSha1B64 signatureHeader webhookSecret
      rawBody = false) :
    ringcentral_webhook_post hmacSha1B64 signatureHeader webhookSecret
        validationToken rawBody decodeJson = (.badSignature, false) ∧
      (ringcentral_webhook_post hmacSha1B64 signatureHeader webhookSecret
        validationToken rawBody decodeJson).1.status = 401 := by
  unfold ringcentral_webhook_post
  simp [hbody, hsig, PostOutcome.status]

/-- Witness for C4 at a concrete mismatching signature. -/
theorem signature_checked_before_parse_witness :
    ringcentral_webhook_post (fun s b => s ++ "|" ++ b) (some "bad") (some "key")
        none "{}" (fun _ => some ⟨"telephony-session-event", true⟩)
      = (.badSignature, false) :=
  (signature_checked_before_parse (fun s b => s ++ "|" ++ b) (some "bad")
    (some "key") none "{}" (fun _ => some ⟨"telephony-session-event", true⟩)
    (by decide) (by decide)).1

/-! ### C10 — verification skipped without header or secret -/

/-- C10: when the `X-RC-Signature` header is absent or no webhook secret
is configured, `_verify_webhook_signature` returns `True` (the request
counts as validly signed) and a non-empty body goes on to be parsed and
processed with no authenticity check. -/
theorem signature_skipped_without_header_or_secret
    (hmacSha1B64 : String → String → String)
    (signatureHeader webhookSecret : Option String) (rawBody : String)
    (hskip : signatureHeader = none ∨ webhookSecret = none) :
    verify_webhook_signature hmacSha1B64 signatureHeader webhookSecret
        rawBody = true ∧
      ∀ (validationToken : Option String)
        (decodeJson : String → Option ParsedWebhook), rawBody ≠ "" →
        (ringcentral_webhook_post hmacSha1B64 signatureHeader webhookSecret
          validationToken rawBody decodeJson).2 = true := by
  have hv : verify_webhook_signature hmacSha1B64 signatureHeader webhookSecret
      rawBody = true := by
    rcases hskip with h | h
    · subst h; simp [verify_webhook_signature]
    · subst h
      cases signatureHeader <;> simp [verify_webhook_signature]
  refine ⟨hv, ?_⟩
  intro validationToken decodeJson hbody
  unfold ringcentral_webhook_post
  simp only [hbody, if_false, hv]
  cases decodeJson rawBody with
  | none => simp
  | some w =>
    by_cases h1 : w.eventType = "telephony-session-event" <;>
      by_cases h2 : w.hasTelephonySessionId <;> simp [h1, h2]

/-- Witness for C10: no header configured, body parsed and processed. -/
theorem signature_skipped_without_header_or_secret_witness :
    verify_webhook_signature (fun s b => s ++ "|" ++ b) none (some "key")
        "{}" = true ∧
      (ringcentral_webhook_post (fun s b => s ++ "|" ++ b) none (some "key")
        none "{}" (fun _ => some ⟨"telephony-session-event", true⟩)).2 = true := by
  have h := signature_skipped_without_header_or_secret
    (fun s b => s ++ "|" ++ b) none (some "key") "{}" (Or.inl rfl)
  exact ⟨h.1, h.2 none (fun _ => some ⟨"telephony-session-event", true⟩) (by decide)⟩

/-! ### C2 — `isProcessing` is a per-call pipeline mutex -/

/-- C2: for every call session and every outcome of the external
pipeline stages, a run entered with `isProcessing = false` finishes with
`isProcessing = false` (the `finally` clears it on success and on every
failure path), and a run attempted while `isProcessing` is already true
returns at once: it performs no action and drains nothing, so new audio
is only buffered, never processed concurrently. -/
theorem isProcessing_cleared_and_exclusive (env : PipelineEnv)
    (s : StreamSession) :
    (process_audio_chunk env { s with is_processing := false }).1.is_processing
        = false ∧
      process_audio_chunk env { s with is_processing := true }
        = ({ s with is_processing := true }, []) := by
  constructor
  · unfold process_audio_chunk
    simp only [Bool.false_eq_true, if_false]
    repeat' split
    all_goals rfl
  · unfold process_audio_chunk
    simp

/-! ### C3 — threshold-triggered single pipeline cycle -/

/-- Helper: a run attempted while the pipeline is busy does nothing. -/
theorem process_audio_chunk_busy (env : PipelineEnv) (t : StreamSession)
    (ht : t.is_processing = true) : process_audio_chunk env t = (t, []) := by
  unfold process_audio_chunk
  simp [ht]

/-- Helper: a pipeline run entered idle on a buffer of at least 1000
bytes empties the buffer, calls transcribe exactly once on every
environment outcome, and ends idle. -/
theorem process_chunk_run_core (env : PipelineEnv) (s : StreamSession)
    (hidle : s.is_processing = false) (hlen : 1000 ≤ s.audio_buffer.length) :
    (process_audio_chunk env s).1.audio_buffer = [] ∧
      countTranscribe (process_audio_chunk env s).2 = 1 ∧
      (process_audio_chunk env s).1.is_processing = false := by
  unfold process_audio_chunk
  have hnl : ¬ s.audio_buffer.length < 1000 := by omega
  simp only [hidle, Bool.false_eq_true, if_false, hnl]
  repeat' split
  all_goals simp [countTranscribe]

/-- C3: when the accumulated buffer reaches `sample_rate * 2` bytes and
`isProcessing` is false, exactly one transcribe cycle is triggered, the
buffer is empty immediately after the swap (and stays so for this run),
the run finishes idle — and fragments arriving while a cycle runs are
only appended to the buffer, forming the next batch, with no second
cycle and no actions. -/
theorem audio_threshold_single_cycle (env : PipelineEnv)
    (s : StreamSession) (msg : List Nat)
    (hidle : s.is_processing = false)
    (hthresh : sample_rate * 2 ≤ (s.audio_buffer ++ msg).length) :
    ((handle_audio_fragment env s msg).1.audio_buffer = [] ∧
      countTranscribe (handle_audio_fragment env s msg).2 = 1 ∧
      (handle_audio_fragment env s msg).1.is_processing = false) ∧
      ∀ (s' : StreamSession) (m : List Nat),
        handle_audio_fragment env { s' with is_processing := true } m =
          ({ s' with is_processing := true
                     audio_buffer := s'.audio_buffer ++ m }, []) := by
  constructor
  · unfold handle_audio_fragment
    have hc : ({ s with audio_buffer := s.audio_buffer ++ msg } :
        StreamSession).audio_buffer.length ≥ sample_rate * 2 := hthresh
    rw [if_pos hc]
    refine process_chunk_run_core env _ hidle ?_
    show (1000 : Nat) ≤ (s.audio_buffer ++ msg).length
    have h32 : (32000 : Nat) ≤ (s.audio_buffer ++ msg).length := by
      simpa [sample_rate] using hthresh
    omega
  · intro s' m
    unfold handle_audio_fragment
    dsimp only
    split
    · exact process_audio_chunk_busy env _ rfl
    · rfl

/-! ### C9 — SIP digest challenge-response registration -/

/-- C9: on a `401 Unauthorized` challenge carrying a nonce, the engine
resends `REGISTER` through `register_with_ringcentral` with an
`Authorization` header whose `response` field is exactly
`MD5(MD5(username:realm:password) : nonce : MD5(method:uri))` as
computed by `calculate_digest_response`; and a subsequent `200 OK`
mentioning `REGISTER` sets the `registered` flag. -/
theorem sip_digest_reregistration (md5 : String → String)
    (cfg : SipConfig) (lc : LocalConfig) (st st2 : SipState) (now : Nat)
    (challenge okMsg : String) (params : List (String × String))
    (nonce realmVal : String)
    (hnotInv : startsWithStr "INVITE"
      ((splitStr "\r\n" challenge).headD "") = false)
    (hnotOk : startsWithStr "SIP/2.0 200 OK"
      ((splitStr "\r\n" challenge).headD "") = false)
    (hline : startsWithStr "SIP/2.0 401"
      ((splitStr "\r\n" challenge).headD "") = true)
    (hparse : parse_auth_params challenge = some params)
    (hnonce : lookupParam params "nonce" = some nonce)
    (hrealm : (lookupParam params "realm").getD cfg.auth_realm = realmVal)
    (hokNotInv : startsWithStr "INVITE"
      ((splitStr "\r\n" okMsg).headD "") = false)
    (hokLine : startsWithStr "SIP/2.0 200 OK"
      ((splitStr "\r\n" okMsg).headD "") = true)
    (hokReg : pyInStr "REGISTER" okMsg = true) :
    handle_sip_message md5 cfg lc st now challenge =
      ((register_with_ringcentral cfg lc st now
          (some (digest_authorization_header cfg.username realmVal nonce
            ("sip:" ++ cfg.domain)
            (calculate_digest_response md5 cfg.username realmVal cfg.password
              "REGISTER" ("sip:" ++ cfg.domain) nonce)))).1,
        .sendRegister (register_with_ringcentral cfg lc st now
          (some (digest_authorization_header cfg.username realmVal nonce
            ("sip:" ++ cfg.domain)
            (calculate_digest_response md5 cfg.username realmVal cfg.password
              "REGISTER" ("sip:" ++ cfg.domain) nonce)))).2) ∧
      (handle_sip_message md5 cfg lc st2 now okMsg).1.registered = true := by
  constructor
  · unfold handle_sip_message
    simp only [hnotInv, hnotOk, hline, Bool.false_eq_true, if_false, if_true]
    unfold handle_auth_challenge
    simp only [hparse, hnonce]
    cases hre : lookupParam params "realm" with
    | none =>
      rw [hre] at hrealm
      simp only [Option.getD_none] at hrealm
      subst hrealm
      simp [hre]
    | some r =>
      rw [hre] at hrealm
      simp only [Option.getD_some] at hrealm
      subst hrealm
      simp [hre]
  · unfold handle_sip_message
    simp only [List.headD_eq_head?_getD] at hokNotInv hokLine
    simp [hokNotInv, hokLine, hokReg]

set_option maxRecDepth 16384 in
/-- Witness for C9 on a concrete challenge and `200 OK`. -/
theorem sip_digest_reregistration_witness :
    handle_sip_message md5Fix sipCfgFix sipLcFix sipStFix 5 sip401Fix =
      ((register_with_ringcentral sipCfgFix sipLcFix sipStFix 5
          (some (digest_authorization_header sipCfgFix.username "rc" "abc123"
            ("sip:" ++ sipCfgFix.domain)
            (calculate_digest_response md5Fix sipCfgFix.username "rc"
              sipCfgFix.password "REGISTER" ("sip:" ++ sipCfgFix.domain)
              "abc123")))).1,
        .sendRegister (register_with_ringcentral sipCfgFix sipLcFix sipStFix 5
          (some (digest_authorization_header sipCfgFix.username "rc" "abc123"
            ("sip:" ++ sipCfgFix.domain)
            (calculate_digest_response md5Fix sipCfgFix.username "rc"
              sipCfgFix.password "REGISTER" ("sip:" ++ sipCfgFix.domain)
              "abc123")))).2) ∧
      (handle_sip_message md5Fix sipCfgFix sipLcFix sipStFix 5
        sipOkFix).1.registered = true :=
  sip_digest_reregistration md5Fix sipCfgFix sipLcFix sipStFix sipStFix 5
    sip401Fix sipOkFix [("realm", "rc"), ("nonce", "abc123")] "abc123" "rc"
    (by decide) (by decide) (by decide) (by decide) (by decide) (by decide)
    (by decide) (by decide) (by decide)

/-! ### Helper lemmas on the registry and answer-guard models -/

/-- Filtering twice with the same predicate filters once. -/
theorem filter_self_idem {α : Type} (f : α → Bool) (l : List α) :
    (l.filter f).filter f = l.filter f := by
  induction l with
  | nil => rfl
  | cons a t ih =>
    by_cases h : f a <;> simp [List.filter, h, ih]

/-- Deleting a registry key twice equals deleting it once. -/
theorem dictDel_idem (l : List (String × CallRecord)) (k : String) :
    dictDel (dictDel l k) k = dictDel l k :=
  filter_self_idem _ l

/-- Discarding a marker twice equals discarding it once. -/
theorem setDiscard_idem (l : List String) (x : String) :
    setDiscard (setDiscard l x) x = setDiscard l x :=
  filter_self_idem _ l

/-- Membership after a set add. -/
theorem mem_setAdd_iff (l : List String) (x y : String) :
    y ∈ setAdd l x ↔ y = x ∨ y ∈ l := by
  unfold setAdd
  split
  · constructor
    · exact Or.inr
    · rintro (rfl | h) <;> assumption
  · simp [List.mem_cons]

/-- Membership after a set discard. -/
theorem mem_setDiscard_iff (l : List String) (x y : String) :
    y ∈ setDiscard l x ↔ y ∈ l ∧ y ≠ x := by
  unfold setDiscard
  simp

/-- Answer-post counting distributes over concatenation. -/
theorem countAnswerPosts_append (c : String) (a b : List WhAction) :
    countAnswerPosts c (a ++ b) = countAnswerPosts c a + countAnswerPosts c b := by
  unfold countAnswerPosts
  simp [List.filter_append]

/-- Witness for C3: a buffer already at the threshold plus an empty
fragment triggers exactly one transcribe call and leaves the buffer
empty. -/
theorem audio_threshold_single_cycle_witness :
    (handle_audio_fragment okPipelineEnv fullBufferSession []).1.audio_buffer
        = [] ∧
      countTranscribe (handle_audio_fragment okPipelineEnv fullBufferSession
        []).2 = 1 ∧
      (handle_audio_fragment okPipelineEnv fullBufferSession
        []).1.is_processing = false :=
  (audio_threshold_single_cycle okPipelineEnv fullBufferSession [] rfl
    (by simp [fullBufferSession])).1

end VoiceAI

namespace VoiceAI

/-! ### C7 — idempotent terminal-event cleanup -/

/-- C7: processing a terminal webhook event (`Disconnected`, `Gone` or
`Cancelled`) for the same call twice produces no error: both runs answer
200 "processed", the first releases the registry entry and the
answer-guard marker, and the second leaves registry and answer-guard in
exactly the state the first produced. -/
theorem terminal_cleanup_idempotent (st : WHState) (tsid : String)
    (p : Party) (env env2 : AnswerEnv)
    (hdir : p.direction = "Inbound")
    (hterm : p.statusCode ∈ ["Disconnected", "Gone", "Cancelled"]) :
    (handle_telephony_session
        (handle_telephony_session st tsid [(p, env)]).1 tsid [(p, env2)]).1 =
      (handle_telephony_session st tsid [(p, env)]).1 ∧
      (handle_telephony_session st tsid [(p, env)]).2.2 =
        ⟨200, "processed"⟩ ∧
      (handle_telephony_session
        (handle_telephony_session st tsid [(p, env)]).1 tsid
          [(p, env2)]).2.2 = ⟨200, "processed"⟩ := by
  have hone : ∀ (s : WHState) (e : AnswerEnv),
      handle_telephony_session s tsid [(p, e)] =
        ({ active := dictDel s.active (tsid ++ "_" ++ p.partyId),
           answered := setDiscard s.answered (tsid ++ "_" ++ p.partyId) },
         (if p.statusReason = some "Voicemail" ∧ p.missedCall ∧
              pyInStr "15139283626" p.toPhoneNumber then
            if pyTruthy p.toDeviceId then
              [WhAction.voicemailStart (tsid ++ "_" ++ p.partyId ++ "_voicemail")]
            else [WhAction.logError "Device ID not found for voicemail"]
          else []),
         ⟨200, "processed"⟩) := by
    intro s e
    simp only [List.mem_cons, List.not_mem_nil, or_false] at hterm
    unfold handle_telephony_session handle_parties handle_party
    rcases hterm with h | h | h <;>
      simp [hdir, h, handle_parties]
  rw [hone st env, hone _ env2]
  refine ⟨?_, rfl, rfl⟩
  simp [dictDel_idem, setDiscard_idem]

/-- Witness for C7 at a concrete terminal event. -/
theorem terminal_cleanup_idempotent_witness :
    (handle_telephony_session
        (handle_telephony_session ⟨[("s1_p1", ⟨"Setup"⟩)], ["s1_p1"]⟩ "s1"
          [(disconnectedParty, envPostOk)]).1 "s1"
        [(disconnectedParty, envPostOk)]).1 =
      (handle_telephony_session ⟨[("s1_p1", ⟨"Setup"⟩)], ["s1_p1"]⟩ "s1"
        [(disconnectedParty, envPostOk)]).1 ∧
      (handle_telephony_session ⟨[("s1_p1", ⟨"Setup"⟩)], ["s1_p1"]⟩ "s1"
        [(disconnectedParty, envPostOk)]).2.2 = ⟨200, "processed"⟩ ∧
      (handle_telephony_session
        (handle_telephony_session ⟨[("s1_p1", ⟨"Setup"⟩)], ["s1_p1"]⟩ "s1"
          [(disconnectedParty, envPostOk)]).1 "s1"
        [(disconnectedParty, envPostOk)]).2.2 = ⟨200, "processed"⟩ :=
  terminal_cleanup_idempotent ⟨[("s1_p1", ⟨"Setup"⟩)], ["s1_p1"]⟩ "s1"
    disconnectedParty envPostOk envPostOk rfl (by decide)

/-! ### C6 — inbound Setup with missing deviceId -/

/-- C6 counterexample: for an inbound `Setup` event on the monitored
number whose `to` leg has no `deviceId`, starting from an empty
registry, the handler answers 400 and the registry is left EMPTY — the
call is not tracked at all, contradicting "the call remains tracked in
the registry in the Ringing state".  (No answer action is attempted.) -/
theorem setup_without_device_cex :
    (handle_telephony_session ⟨[], []⟩ "s1"
        [(setupPartyNoDevice, envPostOk)]).1.active = [] ∧
      (handle_telephony_session ⟨[], []⟩ "s1"
        [(setupPartyNoDevice, envPostOk)]).2.2 =
        ⟨400, "Device ID not found"⟩ ∧
      countAnswerPosts "s1_p1"
        (handle_telephony_session ⟨[], []⟩ "s1"
          [(setupPartyNoDevice, envPostOk)]).2.1 = 0 := by
  decide

/-- C6 amended: on an inbound `Setup` event for the monitored number
with no `deviceId`, no answer action is attempted, the error is logged,
and the handler returns 400 leaving the module state unchanged — in
particular the call is never added to the registry (the early return
happens before `active_calls` is written). -/
theorem setup_without_device_rejected (st : WHState) (tsid : String)
    (p : Party) (env : AnswerEnv)
    (hdir : p.direction = "Inbound") (hsetup : p.statusCode = "Setup")
    (hmatch : pyInStr target_number p.toPhoneNumber = true)
    (hdev : p.toDeviceId = none) :
    handle_party st tsid p env =
      (st, [.logError "Device ID not found"],
        some ⟨400, "Device ID not found"⟩) := by
  unfold handle_party
  simp [hdir, hsetup, hmatch, hdev]

/-- Witness for the amended C6 at a concrete event. -/
theorem setup_without_device_rejected_witness :
    handle_party ⟨[], []⟩ "s1" setupPartyNoDevice envPostOk =
      (⟨[], []⟩, [.logError "Device ID not found"],
        some ⟨400, "Device ID not found"⟩) :=
  setup_without_device_rejected ⟨[], []⟩ "s1" setupPartyNoDevice envPostOk
    rfl rfl (by decide) rfl

/-! ### C5 — marker removal on failed answer attempts -/

/-- C5 counterexample: when the guard refuses to answer because the
party is already `Disconnected`, the attempted marker is NOT removed —
after the refused attempt the marker set still contains the callId
(and the attempt returned `False`), contradicting "the exactly-once
attempted marker for that callId is removed". -/
theorem guard_refusal_keeps_marker_cex :
    (answer_call_automatically [] "s1" "p1" (some "d77")
        ⟨.partyStatus "Disconnected", true⟩).1 = ["s1_p1"] ∧
      (answer_call_automatically [] "s1" "p1" (some "d77")
        ⟨.partyStatus "Disconnected", true⟩).2.2 = false := by
  decide

/-- C5 amended: the attempted marker is removed only when the provider
answer action itself raises; when the guard refuses because the party is
in a terminal or already-connected state the marker stays set (blocking
later retries); and a second attempt for a callId whose marker is set is
always rejected without touching any state. -/
theorem answer_marker_removal_semantics (answered : List String)
    (sid pid : String) (dev : Option String) (env : AnswerEnv) :
    (sid ++ "_" ++ pid ∈ answered →
      answer_call_automatically answered sid pid dev env =
        (answered, [], false)) ∧
    (sid ++ "_" ++ pid ∉ answered → env.statusCheck = .checkError →
      pyTruthy dev = true → env.postSucceeds = false →
      (answer_call_automatically answered sid pid dev env).1 =
        setDiscard (setAdd answered (sid ++ "_" ++ pid))
          (sid ++ "_" ++ pid) ∧
      sid ++ "_" ++ pid ∉
        (answer_call_automatically answered sid pid dev env).1) ∧
    (∀ code : String, sid ++ "_" ++ pid ∉ answered →
      env.statusCheck = .partyStatus code →
      code ∈ ["Disconnected", "Gone", "Cancelled", "Answered", "Connected"] →
      answer_call_automatically answered sid pid dev env =
        (setAdd answered (sid ++ "_" ++ pid), [], false) ∧
      sid ++ "_" ++ pid ∈
        (answer_call_automatically answered sid pid dev env).1) := by
  refine ⟨?_, ?_, ?_⟩
  · intro hmem
    unfold answer_call_automatically
    simp [hmem]
  · intro hmem hchk hdev hpost
    unfold answer_call_automatically
    simp [hmem, hchk, hdev, hpost, mem_setDiscard_iff]
  · intro code hmem hchk hcode
    have hinv : (code ∈ ["Disconnected", "Gone", "Cancelled", "Answered",
        "Connected"]) := hcode
    unfold answer_call_automatically
    simp only [hmem, if_false, hchk]
    rw [if_pos hinv]
    refine ⟨rfl, ?_⟩
    simp [mem_setAdd_iff]

/-- Witness for the amended C5: a failed provider `POST` removes the
marker that the attempt had just set. -/
theorem answer_marker_removal_semantics_witness :
    ("s1" ++ "_" ++ "p1" ∉ ([] : List String)) ∧
      ((answer_call_automatically [] "s1" "p1" (some "d77") envPostFails).1 =
        setDiscard (setAdd [] ("s1" ++ "_" ++ "p1")) ("s1" ++ "_" ++ "p1") ∧
      "s1" ++ "_" ++ "p1" ∉
        (answer_call_automatically [] "s1" "p1" (some "d77") envPostFails).1) :=
  ⟨by decide,
    (answer_marker_removal_semantics [] "s1" "p1" (some "d77")
      envPostFails).2.1 (by decide) rfl (by decide) rfl⟩

end VoiceAI

namespace VoiceAI

/-! ### C1 — at-most-once answer over event sequences -/

/-- The invariant holds reflexively for a step with no actions. -/
theorem AttemptInv.nil (cid : String) (st : WHState) :
    AttemptInv cid st st [] := by
  refine ⟨by simp [countAnswerPosts], by simp [countAnswerPosts], ?_⟩
  intro h
  exact ⟨h, by simp [countAnswerPosts]⟩

/-- The invariant composes over consecutive steps. -/
theorem AttemptInv.comp {cid : String} {st st' st'' : WHState}
    {a1 a2 : List WhAction} (h1 : AttemptInv cid st st' a1)
    (h2 : AttemptInv cid st' st'' a2) : AttemptInv cid st st'' (a1 ++ a2) := by
  obtain ⟨h1a, h1b, h1c⟩ := h1
  obtain ⟨h2a, h2b, h2c⟩ := h2
  refine ⟨?_, ?_, ?_⟩
  · rw [countAnswerPosts_append]
    by_cases hc1 : countAnswerPosts cid a1 = 1
    · have := h2c (h1b hc1)
      omega
    · omega
  · rw [countAnswerPosts_append]
    intro hsum
    by_cases hc2 : countAnswerPosts cid a2 = 1
    · exact h2b hc2
    · have hc1 : countAnswerPosts cid a1 = 1 := by omega
      exact (h2c (h1b hc1)).1
  · intro hmem
    obtain ⟨hm1, hz1⟩ := h1c hmem
    obtain ⟨hm2, hz2⟩ := h2c hm1
    rw [countAnswerPosts_append]
    exact ⟨hm2, by omega⟩

/-- `answer_call_automatically` preserves the guard invariant when the
provider `POST` succeeds. -/
theorem acall_attempt_inv (cid : String) (answered : List String)
    (sid pid : String) (dev : Option String) (env : AnswerEnv)
    (hpost : env.postSucceeds = true) :
    countAnswerPosts cid
        (answer_call_automatically answered sid pid dev env).2.1 ≤ 1 ∧
    (countAnswerPosts cid
        (answer_call_automatically answered sid pid dev env).2.1 = 1 →
      cid ∈ (answer_call_automatically answered sid pid dev env).1) ∧
    (cid ∈ answered →
      cid ∈ (answer_call_automatically answered sid pid dev env).1 ∧
      countAnswerPosts cid
        (answer_call_automatically answered sid pid dev env).2.1 = 0) := by
  unfold answer_call_automatically
  by_cases hmem : sid ++ "_" ++ pid ∈ answered
  · simp [hmem, countAnswerPosts]
  · simp only [hmem, if_false]
    cases env.statusCheck with
    | checkError =>
      by_cases hdev : pyTruthy dev = true
      · simp only [hdev, hpost, Bool.not_true, if_true]
        by_cases heq : sid ++ "_" ++ pid = cid
        · subst heq
          simp [countAnswerPosts, mem_setAdd_iff, hmem]
        · simp [countAnswerPosts, mem_setAdd_iff, heq]
          try tauto
      · simp only [Bool.not_eq_true] at hdev
        simp [hdev, countAnswerPosts, mem_setAdd_iff]
        try tauto
    | partyNotFound =>
      simp [countAnswerPosts, mem_setAdd_iff]
      try tauto
    | partyStatus code =>
      by_cases hinv : code ∈ ["Disconnected", "Gone", "Cancelled",
          "Answered", "Connected"]
      · simp only []
        rw [if_pos hinv]
        simp [countAnswerPosts, mem_setAdd_iff]
        try tauto
      · by_cases hval : code ∈ ["Setup", "Proceeding", "Alerting"]
        · simp only []
          rw [if_neg hinv, if_neg (by simp [hval])]
          by_cases hdev : pyTruthy dev = true
          · simp only [hdev, hpost, if_true]
            by_cases heq : sid ++ "_" ++ pid = cid
            · subst heq
              simp [countAnswerPosts, mem_setAdd_iff, hmem]
            · simp [countAnswerPosts, mem_setAdd_iff, heq]
              try tauto
          · simp only [Bool.not_eq_true] at hdev
            simp [hdev, countAnswerPosts, mem_setAdd_iff]
            try tauto
        · simp only []
          rw [if_neg hinv, if_pos (by simp [hval])]
          simp [countAnswerPosts, mem_setAdd_iff]
          try tauto

/-- `_run_answer_call` preserves the guard invariant when the provider
`POST` succeeds. -/
theorem run_answer_attempt_inv (cid : String) (answered : List String)
    (sid pid : String) (dev : Option String) (status : String)
    (env : AnswerEnv) (hpost : env.postSucceeds = true) :
    countAnswerPosts cid
        (run_answer_call answered sid pid dev status env).2 ≤ 1 ∧
    (countAnswerPosts cid
        (run_answer_call answered sid pid dev status env).2 = 1 →
      cid ∈ (run_answer_call answered sid pid dev status env).1) ∧
    (cid ∈ answered →
      cid ∈ (run_answer_call answered sid pid dev status env).1 ∧
      countAnswerPosts cid
        (run_answer_call answered sid pid dev status env).2 = 0) := by
  unfold run_answer_call
  split
  · simp [countAnswerPosts]
  · split
    · simp [countAnswerPosts]
    · split
      · simp [countAnswerPosts]
      · exact acall_attempt_inv cid answered sid pid dev env hpost

end VoiceAI

namespace VoiceAI

/-- `handle_party` preserves the guard invariant for `cid` whenever its
answer `POST` (if any) succeeds and the party is not an inbound terminal
event for `cid` (which legitimately releases the marker). -/
theorem handle_party_attempt_inv (cid : String) (st : WHState)
    (tsid : String) (p : Party) (env : AnswerEnv)
    (hpost : env.postSucceeds = true)
    (hterm : ¬(p.direction = "Inbound" ∧ p.statusCode ∈ terminalCodes ∧
      tsid ++ "_" ++ p.partyId = cid)) :
    AttemptInv cid st (handle_party st tsid p env).1
      (handle_party st tsid p env).2.1 := by
  have triv : ∀ (s : WHState) (acts : List WhAction),
      countAnswerPosts cid acts = 0 →
      (cid ∈ st.answered → cid ∈ s.answered) → AttemptInv cid st s acts := by
    intro s acts hz hpres
    exact ⟨by omega, by omega, fun h => ⟨hpres h, hz⟩⟩
  unfold handle_party
  split
  · -- inbound Setup on the monitored number
    split
    · exact triv st _ (by simp [countAnswerPosts]) (fun h => h)
    · obtain ⟨h1, h2, h3⟩ := run_answer_attempt_inv cid st.answered tsid
        p.partyId _ p.statusCode env hpost
      refine ⟨?_, ?_, ?_⟩
      · simpa [countAnswerPosts] using h1
      · intro hc
        exact h2 (by simpa [countAnswerPosts] using hc)
      · intro hmem
        obtain ⟨hm, hz⟩ := h3 hmem
        exact ⟨hm, by simpa [countAnswerPosts] using hz⟩
  · split
    · exact triv st [] (by simp [countAnswerPosts]) (fun h => h)
    · split
      · exact triv st [] (by simp [countAnswerPosts]) (fun h => h)
      · split
        · -- inbound terminal event for a different call id
          next hbr =>
          have hne : cid ≠ tsid ++ "_" ++ p.partyId := by
            intro heq
            exact hterm ⟨hbr.1, by simpa [terminalCodes] using hbr.2, heq.symm⟩
          refine triv _ _ ?_ ?_
          · split
            · split <;> simp [countAnswerPosts]
            · simp [countAnswerPosts]
          · intro h
            exact (mem_setDiscard_iff _ _ _).mpr ⟨h, hne⟩
        · split
          · dsimp only
            repeat' split
            all_goals exact triv _ _ (by simp [countAnswerPosts]) (fun h => h)
          · exact triv st [] (by simp [countAnswerPosts]) (fun h => h)

/-- The parties loop preserves the guard invariant. -/
theorem handle_parties_attempt_inv (cid : String) (tsid : String) :
    ∀ (ps : List (Party × AnswerEnv)) (st : WHState),
      (∀ pe ∈ ps, pe.2.postSucceeds = true) →
      (∀ pe ∈ ps, ¬(pe.1.direction = "Inbound" ∧
        pe.1.statusCode ∈ terminalCodes ∧
        tsid ++ "_" ++ pe.1.partyId = cid)) →
      AttemptInv cid st (handle_parties st tsid ps).1
        (handle_parties st tsid ps).2.1
  | [], st, _, _ => by
    unfold handle_parties
    exact AttemptInv.nil cid st
  | (p, e) :: rest, st, hp, ht => by
    have hinv1 := handle_party_attempt_inv cid st tsid p e
      (hp (p, e) (List.mem_cons_self _ _)) (ht (p, e) (List.mem_cons_self _ _))
    unfold handle_parties
    rcases hres : handle_party st tsid p e with ⟨st', acts, early⟩
    rw [hres] at hinv1
    cases early with
    | some resp =>
      simpa using hinv1
    | none =>
      have hrest := handle_parties_attempt_inv cid tsid rest st'
        (fun pe h => hp pe (List.mem_cons_of_mem _ h))
        (fun pe h => ht pe (List.mem_cons_of_mem _ h))
      simpa using AttemptInv.comp hinv1 hrest

/-- Processing a whole event sequence preserves the guard invariant. -/
theorem process_events_attempt_inv (cid : String) :
    ∀ (evs : List (String × List (Party × AnswerEnv))) (st : WHState),
      (∀ ev ∈ evs, ∀ pe ∈ ev.2, pe.2.postSucceeds = true) →
      (∀ ev ∈ evs, ∀ pe ∈ ev.2, ¬(pe.1.direction = "Inbound" ∧
        pe.1.statusCode ∈ terminalCodes ∧ ev.1 ++ "_" ++ pe.1.partyId = cid)) →
      AttemptInv cid st (process_events st evs).1 (process_events st evs).2
  | [], st, _, _ => by
    unfold process_events
    exact AttemptInv.nil cid st
  | (tsid, parties) :: rest, st, hp, ht => by
    have hinv1 := handle_parties_attempt_inv cid tsid parties st
      (fun pe h => hp (tsid, parties) (List.mem_cons_self _ _) pe h)
      (fun pe h => ht (tsid, parties) (List.mem_cons_self _ _) pe h)
    unfold process_events
    unfold handle_telephony_session at hinv1 ⊢
    rcases hres : handle_parties st tsid parties with ⟨st', acts, resp⟩
    rw [hres] at hinv1
    have hrest := process_events_attempt_inv cid rest st'
      (fun ev h pe hpe => hp ev (List.mem_cons_of_mem _ h) pe hpe)
      (fun ev h pe hpe => ht ev (List.mem_cons_of_mem _ h) pe hpe)
    simpa using AttemptInv.comp hinv1 hrest

end VoiceAI

namespace VoiceAI

/-- C1 counterexample: two deliveries of the same inbound `Setup` event
for one callId, where the provider answer action fails on the first
attempt, make the handler issue the provider answer action TWICE for
that callId — the failed attempt discards the attempted marker, so the
redelivered event answers again.  This contradicts "the provider answer
action is invoked at most once for that callId … even if a later step
fails", and shows the marker transitioning false→true twice. -/
theorem duplicate_setup_two_answer_posts_cex :
    countAnswerPosts "s1_p1"
      (process_events ⟨[], []⟩ duplicateSetupEvents).2 = 2 := by
  decide

/-- C1 amended: while the attempted marker for a callId is set, every
further attempt for it is rejected without any side effect; and over any
webhook event sequence in which every issued answer `POST` succeeds and
no inbound terminal event for that callId arrives (both of which
legitimately remove the marker), the provider answer action is invoked
at most once for that callId, duplicates and reordering included. -/
theorem answer_at_most_once_per_call (cid : String)
    (evs : List (String × List (Party × AnswerEnv)))
    (hpost : ∀ ev ∈ evs, ∀ pe ∈ ev.2, pe.2.postSucceeds = true)
    (hterm : ∀ ev ∈ evs, ∀ pe ∈ ev.2, ¬(pe.1.direction = "Inbound" ∧
      pe.1.statusCode ∈ terminalCodes ∧ ev.1 ++ "_" ++ pe.1.partyId = cid)) :
    countAnswerPosts cid (process_events ⟨[], []⟩ evs).2 ≤ 1 ∧
      ∀ (answered : List String) (sid pid : String) (dev : Option String)
        (env : AnswerEnv), sid ++ "_" ++ pid ∈ answered →
        answer_call_automatically answered sid pid dev env =
          (answered, [], false) := by
  constructor
  · exact (process_events_attempt_inv cid evs ⟨[], []⟩ hpost hterm).1
  · intro answered sid pid dev env hmem
    unfold answer_call_automatically
    simp [hmem]

/-- Witness for the amended C1 on a single successful `Setup` event. -/
theorem answer_at_most_once_per_call_witness :
    countAnswerPosts "s1_p1"
      (process_events ⟨[], []⟩ singleSetupEvent).2 ≤ 1 :=
  (answer_at_most_once_per_call "s1_p1" singleSetupEvent
    (by
      intro ev hev pe hpe
      simp only [singleSetupEvent, List.mem_singleton] at hev
      subst hev
      simp only [List.mem_singleton] at hpe
      subst hpe
      rfl)
    (by
      intro ev hev pe hpe
      simp only [singleSetupEvent, List.mem_singleton] at hev
      subst hev
      simp only [List.mem_singleton] at hpe
      subst hpe
      simp [setupParty, terminalCodes])).1

end VoiceAI

namespace VoiceAI

/-! ### C8 — conversation history windowing -/

/-- Helper: a cycle whose transcription succeeds with non-empty text
appends exactly one user entry to the session history, with no trimming
and no assistant entry — the `generate_ai_response` call raises
`TypeError` right after the user append. -/
theorem process_chunk_appends_history (env : PipelineEnv)
    (s : StreamSession) (t : String) (hidle : s.is_processing = false)
    (hlen : 1000 ≤ s.audio_buffer.length)
    (ht : env.transcribe = .ok t) (htne : t ≠ "" ∧ trimStr t ≠ "") :
    (process_audio_chunk env s).1.conversation_history =
      s.conversation_history ++ [⟨"user", t, env.now⟩] ∧
      (process_audio_chunk env s).1.is_processing = false ∧
      (process_audio_chunk env s).1.audio_buffer = [] := by
  unfold process_audio_chunk
  have hnl : ¬ s.audio_buffer.length < 1000 := by omega
  simp only [hidle, Bool.false_eq_true, if_false, hnl, ht]
  simp only [htne.1, htne.2, ne_eq, not_false_iff, and_self, if_true]

/-- Helper: each threshold-sized batch through `handle_audio_fragment`
whose transcription yields non-empty text grows the stored session
history by one (user) entry and leaves the session idle with an empty
buffer. -/
theorem iterFragments_spec (n : Nat) :
    (iterFragments n).conversation_history.length = n ∧
      (iterFragments n).is_processing = false ∧
      (iterFragments n).audio_buffer = [] := by
  induction n with
  | zero => exact ⟨rfl, rfl, rfl⟩
  | succ k ih =>
    obtain ⟨hl, hp, hb⟩ := ih
    have hc : ({ iterFragments k with
        audio_buffer := (iterFragments k).audio_buffer ++
          List.replicate (sample_rate * 2) 0 } :
        StreamSession).audio_buffer.length ≥ sample_rate * 2 := by
      show ((iterFragments k).audio_buffer ++
        List.replicate (sample_rate * 2) 0).length ≥ sample_rate * 2
      rw [hb]
      simp
    have hstep : iterFragments (k + 1) =
        (process_audio_chunk okPipelineEnv
          { iterFragments k with
            audio_buffer := (iterFragments k).audio_buffer ++
              List.replicate (sample_rate * 2) 0 }).1 := by
      show (handle_audio_fragment okPipelineEnv (iterFragments k)
        (List.replicate (sample_rate * 2) 0)).1 = _
      unfold handle_audio_fragment
      rw [if_pos hc]
    have hgrow := process_chunk_appends_history okPipelineEnv
      { iterFragments k with
        audio_buffer := (iterFragments k).audio_buffer ++
          List.replicate (sample_rate * 2) 0 }
      "hello there" hp
      (by
        show 1000 ≤ ((iterFragments k).audio_buffer ++
          List.replicate (sample_rate * 2) 0).length
        rw [hb]
        simp only [List.nil_append, List.length_replicate, sample_rate]
        omega)
      rfl (by decide)
    obtain ⟨h1, h2, h3⟩ := hgrow
    rw [hstep]
    refine ⟨?_, h2, h3⟩
    rw [h1]
    show ((iterFragments k).conversation_history ++ _).length = k + 1
    rw [List.length_append, hl]
    simp

/-- C8 counterexample: after eleven transcribed audio batches the
per-call session history stored by the audio stream handler holds 11
entries — more than the `max_history = 10` turns the fixed window
allows: the session history is never trimmed and grows without bound,
contradicting "the stored history never exceeds the fixed window size".
(All 11 entries are user turns: the `generate_ai_response` call raises
`TypeError` on its unsupported `conversation_history` keyword, so an
assistant turn is never appended.) -/
theorem session_history_exceeds_window_cex :
    (iterFragments 11).conversation_history.length = 11 ∧
      max_history < (iterFragments 11).conversation_history.length := by
  have h := (iterFragments_spec 11).1
  refine ⟨h, ?_⟩
  rw [h]
  decide

/-- Helper: the user/assistant pair expansion doubles the length. -/
theorem flatMap_pairs_length (l : List Exchange) :
    (l.flatMap (fun e => [(⟨"user", e.user⟩ : ChatMsg),
      ⟨"assistant", e.assistant⟩])).length = 2 * l.length := by
  induction l with
  | nil => rfl
  | cons e t ih =>
    simp only [List.flatMap_cons, List.length_append, ih, List.length_cons,
      List.length_nil]
    omega

/-- C8 amended: the LLM handler's stored exchange history is bounded —
`_update_history` never leaves more than `max_history` exchanges — and
the window `_build_messages` passes to the model holds at most the
trailing `max_history` exchanges (at most `2·max_history + 3` messages);
the per-call session history in the audio stream handler is append-only
(each pipeline run only extends it) but is NOT windowed. -/
theorem conversation_window_bounds :
    (∀ (h : List Exchange) (u a : String) (now : Nat),
      (update_history h u a now).length ≤ max_history) ∧
      (∀ (sp : String) (h : List Exchange) (ui ctx : String),
        (build_messages sp h ui ctx).length ≤ 2 * max_history + 3) ∧
      (∀ (env : PipelineEnv) (s : StreamSession),
        s.conversation_history <+:
          (process_audio_chunk env s).1.conversation_history) := by
  refine ⟨?_, ?_, ?_⟩
  · intro h u a now
    unfold update_history lastN
    dsimp only
    split
    · simp only [List.length_drop]
      omega
    · rename_i hle
      simp only [not_lt] at hle
      exact hle
  · intro sp h ui ctx
    have hw : (lastN h max_history).length ≤ max_history := by
      unfold lastN
      simp only [List.length_drop]
      omega
    unfold build_messages
    dsimp only
    by_cases hctx : ctx = ""
    · rw [hctx, if_neg (by simp), List.length_append, List.length_append,
        flatMap_pairs_length]
      simp only [List.length_cons, List.length_nil]
      omega
    · rw [if_pos hctx, List.length_append, List.length_append,
        flatMap_pairs_length, List.length_append]
      simp only [List.length_cons, List.length_nil]
      omega
  · intro env s
    unfold process_audio_chunk
    dsimp only
    repeat' split
    all_goals dsimp only
    all_goals
      first
      | exact List.prefix_rfl
      | exact List.prefix_append _ _

end VoiceAI
